import Mathlib

/-!
Verification of the `anydata` resolution pipeline (Go package `pbnjay/anydata`)
against its natural-language specification.

Go strings are embedded as `List Char` (`GoStr`), byte payloads as `List Nat`
(`Bytes`).  The standard-library collaborators the package calls are embedded
as follows, each noted at its point of use:

* `net/url.Parse` is kept abstract: the package only reads the error, `.Path`,
  `.Fragment` and `.Scheme` of the result, so a parse is a value of type
  `URLParse := GoStr → Option URL` over which all theorems quantify.
* `strings.SplitN(s, "#", 2)`, `strings.Contains`, `strings.HasPrefix` and
  `strings.HasSuffix` are given executable definitions on `GoStr`.
* `archive/zip`, `archive/tar`, `compress/gzip`, `compress/bzip2` and the
  `crypto/md5` hex digest are abstract parameters (their results are what the
  package inspects, never their internals).
* The file system and the wall clock are explicit state (`World`, `now : Nat`,
  time measured in hours as the cache-age arithmetic only compares durations).

A Go runtime panic (the only one reachable in the modelled code is the
assignment to a nil map in `PutCachedFile`) is modelled by an `Option` result
being `none`.
-/

namespace Anydata

/-- Go strings, embedded as lists of characters. -/
abbrev GoStr := List Char

/-- Byte payloads, embedded as lists of naturals. -/
abbrev Bytes := List Nat

/-- Conversion from a Lean string literal to the `GoStr` embedding. -/
def gs (s : String) : GoStr := s.data

/-- `strings.HasPrefix s pre` from the Go standard library. -/
def startsWith : GoStr → GoStr → Bool
  | _, [] => true
  | [], _ :: _ => false
  | c :: s, p :: ps => c == p && startsWith s ps

/-- `strings.HasSuffix s suf` from the Go standard library. -/
def endsWith (s suf : GoStr) : Bool := startsWith s.reverse suf.reverse

/-- `strings.Contains s "#"` from the Go standard library. -/
def containsHash (s : GoStr) : Bool := s.any (fun c => c == '#')

/-- `strings.SplitN(s, "#", 2)` from the Go standard library: the first
component is `parts[0]` (the whole string when no `'#'` occurs); the second is
`some parts[1]` exactly when the separator occurs. -/
def splitHash : GoStr → GoStr × Option GoStr
  | [] => ([], none)
  | c :: s =>
      if c = '#' then ([], some s)
      else
        let r := splitHash s
        (c :: r.1, r.2)

/-- The result of `net/url.Parse`, restricted to the fields the package reads. -/
structure URL where
  scheme : GoStr
  path : GoStr
  fragment : GoStr
deriving DecidableEq

/-- Abstract embedding of `net/url.Parse`; `none` models a non-nil error. -/
abbrev URLParse := GoStr → Option URL

/-- The error values produced by the modelled code, one constructor per
`fmt.Errorf` site (plus propagated collaborator errors). -/
inductive GoErr where
  /-- `fmt.Errorf("no defined fetchers match '%s'", resource)` in `GetFetcher`. -/
  | noFetcherMatch (resource : GoStr)
  /-- the non-nil error of `url.Parse(resource)`. -/
  | urlParseFail (resource : GoStr)
  /-- `"reading from http source failed (did you call Fetch?)"`. -/
  | notFetchedHttp
  /-- `"reading from ftp source failed (did you call Fetch?)"`. -/
  | notFetchedFtp
  /-- a non-nil error of `zip.NewReader`. -/
  | zipOpenFail
  /-- `fmt.Errorf("reading '%s' from .zip failed", name)`. -/
  | memberNotFoundZip (name : GoStr)
  /-- `fmt.Errorf("reading '%s' from .tar failed", name)`. -/
  | memberNotFoundTar (name : GoStr)
  /-- `fmt.Errorf("unknown tarball error")`. -/
  | unknownTarball
  /-- a non-nil error of `gzip.NewReader`. -/
  | gzipHeaderBad
  /-- a transport error during an HTTP/FTP retrieval. -/
  | netFail (resource : GoStr)
deriving DecidableEq

/-! ## Locator parsing (`GetFetcher`, middle section)

The Go code is:
```
mainpath := resource
pathpart := ""
furl, err := url.Parse(resource)
if err == nil {
    mainpath = furl.Path
    pathpart = furl.Fragment
} else if strings.Contains(resource, "#") {
    parts := strings.SplitN(resource, "#", 2)
    mainpath = parts[0]
    pathpart = parts[1]
}
```
-/

/-- The `(mainpath, pathpart)` pair computed inside `GetFetcher`, translated
statement by statement from the Go code above. -/
def goParseLocator (up : URLParse) (res : GoStr) : GoStr × GoStr :=
  match up res with
  | some u => (u.path, u.fragment)
  | none =>
      if containsHash res then ((splitHash res).1, ((splitHash res).2).getD [])
      else (res, [])

/-- The error value `GetFetcher` holds after the parse step: the `url.Parse`
error survives when parsing failed, whether or not the `'#'` fallback ran. -/
def urlErrOf (up : URLParse) (res : GoStr) : Option GoErr :=
  match up res with
  | some _ => none
  | none => some (.urlParseFail res)

/-- Modelled from the spec (§4.1 Locator Parser), for comparison with
`goParseLocator`: URL-syntax parsing is attempted first; on success the result
is the URL path and fragment; on failure, a string containing `'#'` is split
at the first `'#'`; otherwise the whole string is the main path and the member
name is empty. -/
def specParseLocator (up : URLParse) (res : GoStr) : GoStr × GoStr :=
  match up res with
  | some u => (u.path, u.fragment)
  | none =>
      if containsHash res then
        (res.takeWhile (fun c => c != '#'), (res.dropWhile (fun c => c != '#')).drop 1)
      else (res, [])

theorem splitHash_fst (s : GoStr) :
    (splitHash s).1 = s.takeWhile (fun c => c != '#') := by
  induction s with
  | nil => rfl
  | cons c s ih =>
      by_cases hc : c = '#'
      · simp [splitHash, hc]
      · simp [splitHash, hc, ih]

theorem splitHash_snd (s : GoStr) (h : containsHash s = true) :
    (splitHash s).2 = some ((s.dropWhile (fun c => c != '#')).drop 1) := by
  induction s with
  | nil => simp [containsHash] at h
  | cons c s ih =>
      by_cases hc : c = '#'
      · simp [splitHash, hc]
      · have h' : containsHash s = true := by
          simp [containsHash, hc] at h ⊢
          exact h
        simp [splitHash, hc, ih h']

/-! ## The registries and `GetFetcher` (generic model)

Fetchers and wrappers are interface values; for the registry-level claims the
two interfaces are embedded generically: a fetcher carries its `Detect`
predicate and an opaque value of type `α` (standing for the interface value
itself), a wrapper carries its `DetectWrap` predicate and its `Wrap` method. -/

/-- A registered `Fetcher`: its `Detect` predicate plus the interface value. -/
structure FetcherI (α : Type) where
  detect : GoStr → Bool
  val : α

/-- A registered `Wrapper`: its `DetectWrap` predicate plus its `Wrap` method
(`Wrap` returns a fetcher value and an error, like the Go interface). -/
structure WrapperI (α : Type) where
  detectWrap : GoStr → GoStr → Bool
  wrap : α → GoStr → α × Option GoErr

/-- The fetcher-selection loop of `GetFetcher`:
`for _, f := range fetchers { if f.Detect(resource) { rf = f; break } }`. -/
def goSelect {α : Type} : List (FetcherI α) → GoStr → Option (FetcherI α)
  | [], _ => none
  | f :: fs, res => if f.detect res then some f else goSelect fs res

/-- The wrapper loop of `GetFetcher`:
`for _, w := range wrappers { if w.DetectWrap(mainpath, pathpart) { rf, err = w.Wrap(rf, pathpart) } }`,
threading the `(rf, err)` accumulator exactly as the Go code does (a wrapper
that matches overwrites both, a wrapper that does not leaves both). -/
def goWrapPass {α : Type} (mp pn : GoStr) :
    List (WrapperI α) → α × Option GoErr → α × Option GoErr
  | [], acc => acc
  | w :: ws, acc =>
      goWrapPass mp pn ws (if w.detectWrap mp pn then w.wrap acc.1 pn else acc)

/-- `GetFetcher`, translated from `anydata.go`: select the fetcher, fail with
the no-match error when none detects, parse the locator, run the wrapper pass,
and return the final fetcher together with the error variable (which at that
point holds the last wrapper error, or the `url.Parse` error if no wrapper
matched). -/
def getFetcher {α : Type} (up : URLParse) (fs : List (FetcherI α))
    (ws : List (WrapperI α)) (res : GoStr) : Option α × Option GoErr :=
  match goSelect fs res with
  | none => (none, some (.noFetcherMatch res))
  | some f =>
      let mp := (goParseLocator up res).1
      let pn := (goParseLocator up res).2
      let r := goWrapPass mp pn ws (f.val, urlErrOf up res)
      (some r.1, r.2)

/-- Modelled from the spec (§4.2 step 3), for comparison with `goWrapPass`:
"for every Wrapper whose `detectWrap(mainPath, memberName)` returns true,
replace the current Fetcher with `wrapper.wrap(currentFetcher, memberName)`" —
i.e. fold `wrap` over exactly the wrappers whose predicate matches, in
registration order. -/
def specWrapPass {α : Type} (mp pn : GoStr) (ws : List (WrapperI α))
    (acc : α × Option GoErr) : α × Option GoErr :=
  (ws.filter (fun w => w.detectWrap mp pn)).foldl (fun a w => w.wrap a.1 pn) acc

theorem goWrapPass_eq_spec {α : Type} (mp pn : GoStr) (ws : List (WrapperI α))
    (acc : α × Option GoErr) : goWrapPass mp pn ws acc = specWrapPass mp pn ws acc := by
  induction ws generalizing acc with
  | nil => rfl
  | cons w ws ih =>
      cases hw : w.detectWrap mp pn with
      | false => simp [goWrapPass, specWrapPass, List.filter_cons, hw, ih]
      | true => simp [goWrapPass, specWrapPass, List.filter_cons, hw, ih]

theorem goSelect_eq_find {α : Type} (fs : List (FetcherI α)) (res : GoStr) :
    goSelect fs res = fs.find? (fun f => f.detect res) := by
  induction fs with
  | nil => rfl
  | cons f fs ih =>
      by_cases hf : f.detect res
      · simp [goSelect, hf, List.find?]
      · simp [goSelect, hf, List.find?, ih]

/-- Claim C6: locator parsing in `GetFetcher` is total (it is a Lean function
into pairs, with no error outcome) and computes exactly the specified split:
if URL parsing succeeds, `(URL path, URL fragment)`; if it fails and the
string contains `'#'`, the split of the string at the first `'#'`; otherwise
`(whole string, empty)`. -/
theorem C6_parse_total_and_specified (up : URLParse) (res : GoStr) :
    goParseLocator up res = specParseLocator up res := by
  unfold goParseLocator specParseLocator
  match h : up res with
  | some u => rfl
  | none =>
      by_cases hc : containsHash res = true
      · simp [hc, splitHash_fst, splitHash_snd res hc]
      · simp [hc]

/-- A URL parse that fails on every input (every string the default fetchers
cannot parse behaves this way); used to instantiate witnesses. -/
def upNone : URLParse := fun _ => none

/-- A sample registered fetcher whose `Detect` accepts everything. -/
def fAll : FetcherI Nat := { detect := fun _ => true, val := 7 }

/-- A sample registered fetcher whose `Detect` rejects everything. -/
def fNone : FetcherI Nat := { detect := fun _ => false, val := 0 }

/-- A sample registered wrapper that always matches and increments. -/
def wPlus : WrapperI Nat := { detectWrap := fun _ _ => true, wrap := fun a _ => (a + 1, none) }

/-- A sample registered wrapper that always matches and scales. -/
def wTimes : WrapperI Nat := { detectWrap := fun _ _ => true, wrap := fun a _ => (a * 10, none) }

/-- A sample registered wrapper that never matches. -/
def wNever : WrapperI Nat := { detectWrap := fun _ _ => false, wrap := fun a _ => (a, none) }

/-- Claim C2: `GetFetcher` selects the first registered fetcher (in
registration order) whose `Detect` accepts the resource — the selection loop
equals `List.find?` — and when no registered fetcher's `Detect` accepts the
resource, `GetFetcher` returns a nil fetcher together with the
no-fetcher-match error. -/
theorem C2_first_match_or_noFetcherMatch {α : Type} (up : URLParse)
    (fs : List (FetcherI α)) (ws : List (WrapperI α)) (res : GoStr) :
    goSelect fs res = fs.find? (fun f => f.detect res) ∧
      (fs.find? (fun f => f.detect res) = none →
        getFetcher up fs ws res = (none, some (.noFetcherMatch res))) := by
  refine ⟨goSelect_eq_find fs res, fun h => ?_⟩
  unfold getFetcher
  rw [goSelect_eq_find, h]

/-- Claim C2 witness: with a registry whose fetchers all reject the resource,
`GetFetcher` returns no fetcher and the no-fetcher-match error. -/
theorem C2_first_match_or_noFetcherMatch_witness :
    ([fNone].find? (fun f => f.detect (gs "x")) = none) ∧
      getFetcher upNone [fNone] [] (gs "x") = (none, some (.noFetcherMatch (gs "x"))) := by
  refine ⟨rfl, ?_⟩
  exact (C2_first_match_or_noFetcherMatch upNone [fNone] [] (gs "x")).2 rfl

/-- Claim C3: once a fetcher is selected, the wrapper pass of `GetFetcher`
folds `Wrap` over exactly the wrappers whose `DetectWrap(mainPath, memberName)`
returns true, in registration order (so wrapping is cumulative), and in
particular two wrappers that both match wrap twice, the second around the
result of the first. -/
theorem C3_cumulative_wrapping {α : Type} (up : URLParse) (fs : List (FetcherI α))
    (ws : List (WrapperI α)) (res : GoStr) (f : FetcherI α)
    (h : goSelect fs res = some f) :
    (getFetcher up fs ws res =
        (some (specWrapPass (goParseLocator up res).1 (goParseLocator up res).2 ws
            (f.val, urlErrOf up res)).1,
          (specWrapPass (goParseLocator up res).1 (goParseLocator up res).2 ws
            (f.val, urlErrOf up res)).2)) ∧
      (∀ (w1 w2 : WrapperI α) (a : α) (e : Option GoErr),
        w1.detectWrap (goParseLocator up res).1 (goParseLocator up res).2 = true →
        w2.detectWrap (goParseLocator up res).1 (goParseLocator up res).2 = true →
        goWrapPass (goParseLocator up res).1 (goParseLocator up res).2 [w1, w2] (a, e) =
          w2.wrap (w1.wrap a (goParseLocator up res).2).1 (goParseLocator up res).2) := by
  constructor
  · unfold getFetcher
    rw [h]
    dsimp only
    rw [goWrapPass_eq_spec]
  · intro w1 w2 a e h1 h2
    simp [goWrapPass, h1, h2]

/-- Claim C3 witness: with one matching fetcher and two wrappers that both
match, `GetFetcher` applies both wraps cumulatively. -/
theorem C3_cumulative_wrapping_witness :
    (goSelect [fAll] (gs "r") = some fAll) ∧
      goWrapPass (goParseLocator upNone (gs "r")).1 (goParseLocator upNone (gs "r")).2
          [wPlus, wTimes] (7, none) =
        wTimes.wrap (wPlus.wrap 7 (goParseLocator upNone (gs "r")).2).1
          (goParseLocator upNone (gs "r")).2 := by
  refine ⟨rfl, ?_⟩
  exact (C3_cumulative_wrapping upNone [fAll] [wPlus, wTimes] (gs "r") fAll rfl).2
    wPlus wTimes 7 none rfl rfl

/-- Claim C10: when a registered fetcher matches the resource but
`url.Parse(resource)` fails and no wrapper's `DetectWrap` matches the parsed
locator, `GetFetcher` returns the selected (non-nil) fetcher together with the
(non-nil) `url.Parse` error. -/
theorem C10_fetcher_with_error {α : Type} (up : URLParse) (fs : List (FetcherI α))
    (ws : List (WrapperI α)) (res : GoStr) (f : FetcherI α)
    (hsel : goSelect fs res = some f) (hup : up res = none)
    (hws : ∀ w ∈ ws,
      w.detectWrap (goParseLocator up res).1 (goParseLocator up res).2 = false) :
    getFetcher up fs ws res = (some f.val, some (.urlParseFail res)) := by
  unfold getFetcher
  rw [hsel]
  have hpass : ∀ (acc : α × Option GoErr),
      goWrapPass (goParseLocator up res).1 (goParseLocator up res).2 ws acc = acc := by
    induction ws with
    | nil => intro acc; rfl
    | cons w ws ih =>
        intro acc
        have hw := hws w (by simp)
        simp only [goWrapPass, hw, Bool.false_eq_true, if_false]
        exact ih (fun w hwmem => hws w (by simp [hwmem])) acc
  simp only [hpass, urlErrOf, hup]

/-- Claim C10 witness: an always-failing URL parse, a matching fetcher and a
never-matching wrapper produce a non-nil fetcher together with the parse
error. -/
theorem C10_fetcher_with_error_witness :
    (goSelect [fAll] (gs "http://x") = some fAll) ∧
      (upNone (gs "http://x") = none) ∧
      getFetcher upNone [fAll] [wNever] (gs "http://x") =
        (some 7, some (.urlParseFail (gs "http://x"))) := by
  refine ⟨rfl, rfl, ?_⟩
  exact C10_fetcher_with_error upNone [fAll] [wNever] (gs "http://x") fAll rfl rfl
    (by intro w hw; simp only [List.mem_singleton] at hw; subst hw; rfl)

/-! ## The default registry, concretely (`init` in `anydata.go`)

`init()` registers one instance of each fetcher (`localFetcher`, `httpFetcher`,
`ftpFetcher`) and one instance of each wrapper (`bzWrapper`, `gzWrapper`,
`zipWrapper`, `tarballWrapper`).  Interface values returned by `GetFetcher`
are pointers to these registered singletons, embedded as `FRef`; the mutable
fields of the four wrapper singletons are explicit state (`RegState`). -/

/-- A reference to one of the registered singleton instances. -/
inductive FRef where
  | localF | httpF | ftpF | bzW | gzW | zipW | tarW
deriving DecidableEq

/-- The mutable fields of the registered `bzWrapper` instance. -/
structure BzWState where
  wrapped : Option FRef
deriving DecidableEq

/-- The mutable fields of the registered `gzWrapper` instance. -/
structure GzWState where
  wrapped : Option FRef
deriving DecidableEq

/-- The mutable fields of the registered `zipWrapper` instance. -/
structure ZipWState where
  wrapped : Option FRef
  insideName : GoStr
deriving DecidableEq

/-- The mutable fields of the registered `tarballWrapper` instance. -/
structure TarWState where
  wrapped : Option FRef
  compType : GoStr
  insideName : GoStr
deriving DecidableEq

/-- The state of the four registered wrapper singletons. -/
structure RegState where
  bz : BzWState
  gz : GzWState
  zip : ZipWState
  tar : TarWState
deriving DecidableEq

/-- The zero-value state the four wrapper singletons are registered with. -/
def regInit : RegState := ⟨⟨none⟩, ⟨none⟩, ⟨none, []⟩, ⟨none, [], []⟩⟩

/-- `localFetcher.Detect`: false when `url.Parse` succeeds with a scheme other
than `"file"`, true otherwise. -/
def localDetect (up : URLParse) (res : GoStr) : Bool :=
  match up res with
  | some u => if u.scheme ≠ gs "file" then false else true
  | none => true

/-- `httpFetcher.Detect`: an `http://` or `https://` prefix. -/
def httpDetect (res : GoStr) : Bool :=
  startsWith res (gs "http://") || startsWith res (gs "https://")

/-- `ftpFetcher.Detect`: an `ftp://` prefix. -/
def ftpDetect (res : GoStr) : Bool := startsWith res (gs "ftp://")

/-- `bzWrapper.DetectWrap`: empty partname and a `.bz2`/`.bzip2` suffix. -/
def bzDetectWrap (mp pn : GoStr) : Bool :=
  if !pn.isEmpty then false
  else endsWith mp (gs ".bz2") || endsWith mp (gs ".bzip2")

/-- `gzWrapper.DetectWrap`: empty partname and a `.gz` suffix. -/
def gzDetectWrap (mp pn : GoStr) : Bool :=
  pn.isEmpty && endsWith mp (gs ".gz")

/-- `zipWrapper.DetectWrap`: non-empty partname and a `.zip` suffix. -/
def zipDetectWrap (mp pn : GoStr) : Bool :=
  !pn.isEmpty && endsWith mp (gs ".zip")

/-- `tarballWrapper.DetectWrap`: it first resets the receiver's `compType`
field to `""`, then records the compression kind implied by the suffix; the
returned pair is (new `compType` field, detection result). -/
def tarDetectWrap (mp pn : GoStr) : GoStr × Bool :=
  if pn.isEmpty then (gs "", false)
  else if endsWith mp (gs ".tar") then (gs "none", true)
  else if endsWith mp (gs ".tar.gz") || endsWith mp (gs ".tgz") then (gs "gzip", true)
  else if endsWith mp (gs ".tar.bz2") || endsWith mp (gs ".tbz2") ||
      endsWith mp (gs ".tar.bzip2") then (gs "bzip2", true)
  else (gs "", false)

/-- `bzWrapper.Wrap`: stores the fetcher in the registered instance and
returns that instance (`n.wrapped = f; return n, nil`), ignoring partname. -/
def bzWrap (s : RegState) (f : FRef) (_pn : GoStr) : RegState × FRef × Option GoErr :=
  ({ s with bz := ⟨some f⟩ }, FRef.bzW, none)

/-- `gzWrapper.Wrap`: stores the fetcher in the registered instance and
returns that instance, ignoring partname. -/
def gzWrap (s : RegState) (f : FRef) (_pn : GoStr) : RegState × FRef × Option GoErr :=
  ({ s with gz := ⟨some f⟩ }, FRef.gzW, none)

/-- `zipWrapper.Wrap`: stores the fetcher and the member name in the
registered instance and returns that instance
(`n.wrapped = f; n.insideName = partname; return n, nil`). -/
def zipWrap (s : RegState) (f : FRef) (pn : GoStr) : RegState × FRef × Option GoErr :=
  ({ s with zip := ⟨some f, pn⟩ }, FRef.zipW, none)

/-- `tarballWrapper.Wrap`: stores the fetcher and the member name in the
registered instance (keeping the `compType` field set by `DetectWrap`) and
returns that instance. -/
def tarWrap (s : RegState) (f : FRef) (pn : GoStr) : RegState × FRef × Option GoErr :=
  ({ s with tar := { s.tar with wrapped := some f, insideName := pn } }, FRef.tarW, none)

/-- `GetFetcher` over the default registries, with the wrapper singletons'
mutable state threaded explicitly: fetchers are tried in registration order
(local, http, ftp), the locator is parsed, then every wrapper (bz, gz, zip,
tarball, in registration order) whose `DetectWrap` matches replaces the
current fetcher with the result of its `Wrap`. -/
def getFetcherDefault (up : URLParse) (s : RegState) (res : GoStr) :
    RegState × Option FRef × Option GoErr :=
  let sel : Option FRef :=
    if localDetect up res then some .localF
    else if httpDetect res then some .httpF
    else if ftpDetect res then some .ftpF
    else none
  match sel with
  | none => (s, none, some (.noFetcherMatch res))
  | some rf0 =>
      let mp := (goParseLocator up res).1
      let pn := (goParseLocator up res).2
      let a0 : RegState × FRef × Option GoErr := (s, rf0, urlErrOf up res)
      let a1 := if bzDetectWrap mp pn then bzWrap a0.1 a0.2.1 pn else a0
      let a2 := if gzDetectWrap mp pn then gzWrap a1.1 a1.2.1 pn else a1
      let a3 := if zipDetectWrap mp pn then zipWrap a2.1 a2.2.1 pn else a2
      let td := tarDetectWrap mp pn
      let s3 : RegState := { a3.1 with tar := { a3.1.tar with compType := td.1 } }
      let a4 := if td.2 then tarWrap s3 a3.2.1 pn else (s3, a3.2.1, a3.2.2)
      (a4.1, some a4.2.1, a4.2.2)

/-- Claim C9 counterexample: resolving `a.zip#x` and then `a.zip#y` (with a
URL parse that fails, so the `'#'` fallback is used and the local fetcher is
selected) returns the very same registered `zipWrapper` instance both times —
not two wrapped fetchers with distinct, independently-owned state — and the
second call overwrites the shared instance's member name from `"x"` to `"y"`. -/
theorem C9_counterexample :
    ((getFetcherDefault upNone regInit (gs "a.zip#x")).2.1 = some FRef.zipW) ∧
      ((getFetcherDefault upNone (getFetcherDefault upNone regInit (gs "a.zip#x")).1
          (gs "a.zip#y")).2.1 = some FRef.zipW) ∧
      ((getFetcherDefault upNone regInit (gs "a.zip#x")).2.1 =
        (getFetcherDefault upNone (getFetcherDefault upNone regInit (gs "a.zip#x")).1
          (gs "a.zip#y")).2.1) ∧
      ((getFetcherDefault upNone regInit (gs "a.zip#x")).1.zip.insideName = gs "x") ∧
      ((getFetcherDefault upNone (getFetcherDefault upNone regInit (gs "a.zip#x")).1
          (gs "a.zip#y")).1.zip.insideName = gs "y") := by
  decide

theorem getFetcherDefault_zip_case (up : URLParse) (s : RegState) (res : GoStr)
    (h1 : localDetect up res = true)
    (hz : zipDetectWrap (goParseLocator up res).1 (goParseLocator up res).2 = true)
    (ht : (tarDetectWrap (goParseLocator up res).1 (goParseLocator up res).2).2 = false) :
    getFetcherDefault up s res =
      ({ s with
          zip := ⟨some FRef.localF, (goParseLocator up res).2⟩,
          tar := { s.tar with
            compType :=
              (tarDetectWrap (goParseLocator up res).1 (goParseLocator up res).2).1 } },
        some FRef.zipW, none) := by
  have hpn : (goParseLocator up res).2.isEmpty = false := by
    cases hh : (goParseLocator up res).2.isEmpty
    · rfl
    · exfalso
      unfold zipDetectWrap at hz
      rw [hh] at hz
      simp at hz
  have hb : bzDetectWrap (goParseLocator up res).1 (goParseLocator up res).2 = false := by
    unfold bzDetectWrap
    rw [hpn]
    rfl
  have hg : gzDetectWrap (goParseLocator up res).1 (goParseLocator up res).2 = false := by
    unfold gzDetectWrap
    rw [hpn]
    rfl
  simp only [getFetcherDefault, h1, hb, hg, hz, ht, if_true, Bool.false_eq_true, if_false,
    zipWrap]

/-- Claim C9, amended: each wrapper's `Wrap` does not return a new Fetcher —
it stores the given fetcher (and member name) into the single registered
wrapper instance and returns that same instance; consequently two successive
`GetFetcher` calls whose locators match the zip wrapper return the same
`zipWrapper` instance, whose state afterwards reflects only the second call's
member name. -/
theorem C9_wrap_returns_registered_instance (up : URLParse) (s : RegState)
    (res1 res2 : GoStr)
    (h1 : localDetect up res1 = true) (h2 : localDetect up res2 = true)
    (hz1 : zipDetectWrap (goParseLocator up res1).1 (goParseLocator up res1).2 = true)
    (hz2 : zipDetectWrap (goParseLocator up res2).1 (goParseLocator up res2).2 = true)
    (ht1 : (tarDetectWrap (goParseLocator up res1).1 (goParseLocator up res1).2).2 = false)
    (ht2 : (tarDetectWrap (goParseLocator up res2).1 (goParseLocator up res2).2).2 = false) :
    (∀ (s' : RegState) (f : FRef) (pn : GoStr),
        zipWrap s' f pn = ({ s' with zip := ⟨some f, pn⟩ }, FRef.zipW, none) ∧
        tarWrap s' f pn =
          ({ s' with tar := { s'.tar with wrapped := some f, insideName := pn } },
            FRef.tarW, none) ∧
        bzWrap s' f pn = ({ s' with bz := ⟨some f⟩ }, FRef.bzW, none) ∧
        gzWrap s' f pn = ({ s' with gz := ⟨some f⟩ }, FRef.gzW, none)) ∧
      (getFetcherDefault up s res1).2.1 = some FRef.zipW ∧
      (getFetcherDefault up (getFetcherDefault up s res1).1 res2).2.1 = some FRef.zipW ∧
      (getFetcherDefault up (getFetcherDefault up s res1).1 res2).1.zip =
        ⟨some FRef.localF, (goParseLocator up res2).2⟩ := by
  refine ⟨fun s' f pn => ⟨rfl, rfl, rfl, rfl⟩, ?_, ?_, ?_⟩
  · rw [getFetcherDefault_zip_case up s res1 h1 hz1 ht1]
  · rw [getFetcherDefault_zip_case up s res1 h1 hz1 ht1,
      getFetcherDefault_zip_case up _ res2 h2 hz2 ht2]
  · rw [getFetcherDefault_zip_case up s res1 h1 hz1 ht1,
      getFetcherDefault_zip_case up _ res2 h2 hz2 ht2]

/-- Claim C9 witness: the amended theorem applied to the two concrete
locators `a.zip#x` and `a.zip#y` of the counterexample. -/
theorem C9_wrap_returns_registered_instance_witness :
    (localDetect upNone (gs "a.zip#x") = true) ∧
      (localDetect upNone (gs "a.zip#y") = true) ∧
      (zipDetectWrap (goParseLocator upNone (gs "a.zip#x")).1
          (goParseLocator upNone (gs "a.zip#x")).2 = true) ∧
      (zipDetectWrap (goParseLocator upNone (gs "a.zip#y")).1
          (goParseLocator upNone (gs "a.zip#y")).2 = true) ∧
      ((tarDetectWrap (goParseLocator upNone (gs "a.zip#x")).1
          (goParseLocator upNone (gs "a.zip#x")).2).2 = false) ∧
      ((tarDetectWrap (goParseLocator upNone (gs "a.zip#y")).1
          (goParseLocator upNone (gs "a.zip#y")).2).2 = false) ∧
      (getFetcherDefault upNone regInit (gs "a.zip#x")).2.1 = some FRef.zipW ∧
      (getFetcherDefault upNone (getFetcherDefault upNone regInit (gs "a.zip#x")).1
          (gs "a.zip#y")).2.1 = some FRef.zipW ∧
      (getFetcherDefault upNone (getFetcherDefault upNone regInit (gs "a.zip#x")).1
          (gs "a.zip#y")).1.zip = ⟨some FRef.localF, gs "y"⟩ := by
  refine ⟨by decide, by decide, by decide, by decide, by decide, by decide, ?_, ?_, ?_⟩
  · exact (C9_wrap_returns_registered_instance upNone regInit (gs "a.zip#x") (gs "a.zip#y")
      (by decide) (by decide) (by decide) (by decide) (by decide) (by decide)).2.1
  · exact (C9_wrap_returns_registered_instance upNone regInit (gs "a.zip#x") (gs "a.zip#y")
      (by decide) (by decide) (by decide) (by decide) (by decide) (by decide)).2.2.1
  · exact (C9_wrap_returns_registered_instance upNone regInit (gs "a.zip#x") (gs "a.zip#y")
      (by decide) (by decide) (by decide) (by decide) (by decide) (by decide)).2.2.2

/-! ## `GetReader` before `Fetch` (claim C7) -/

/-- The `localFetcher` state: its `f *os.File` field (`none` is the nil zero
value it holds before any `Fetch`); the open handle itself is opaque. -/
structure LocalSt where
  f : Option Unit
deriving DecidableEq

/-- `localFetcher.GetReader` from `anydata.go`: `return n.f, nil` — the
current handle (nil before a fetch) and always a nil error. -/
def localGetReader (st : LocalSt) : Option Unit × Option GoErr := (st.f, none)

/-- The `httpFetcher` state: its `data []byte` field (`none` = nil). -/
structure HttpSt where
  data : Option Bytes
deriving DecidableEq

/-- `httpFetcher.GetReader` from `remotes.go`: an error when `data` is nil or
empty, otherwise a reader over the buffered bytes. -/
def httpGetReader (st : HttpSt) : Except GoErr Bytes :=
  match st.data with
  | none => .error .notFetchedHttp
  | some d => if d.length = 0 then .error .notFetchedHttp else .ok d

/-- The `ftpFetcher` state: its `data []byte` field (`none` = nil). -/
structure FtpSt where
  data : Option Bytes
deriving DecidableEq

/-- `ftpFetcher.GetReader` from `remotes.go`: same shape as the HTTP one. -/
def ftpGetReader (st : FtpSt) : Except GoErr Bytes :=
  match st.data with
  | none => .error .notFetchedFtp
  | some d => if d.length = 0 then .error .notFetchedFtp else .ok d

/-- Claim C7 counterexample: the local fetcher in its pre-`Fetch` zero state
returns `(nil, nil)` from `GetReader` — a nil reader with a nil error — and
not a NotFetched error, contradicting the claim for the Local fetcher. -/
theorem C7_counterexample : localGetReader ⟨none⟩ = (none, none) := rfl

/-- Claim C7, amended: the HTTP(S) and FTP fetchers fail with their
NotFetched error when `GetReader` is called while the payload buffer is still
nil (as it is before any successful `Fetch`); the Local fetcher's `GetReader`
instead returns its current (possibly nil) file handle with a nil error, never
a NotFetched error. -/
theorem C7_notFetched_http_ftp_only (hst : HttpSt) (fst : FtpSt) (lst : LocalSt)
    (hh : hst.data = none) (hf : fst.data = none) :
    httpGetReader hst = .error .notFetchedHttp ∧
      ftpGetReader fst = .error .notFetchedFtp ∧
      localGetReader lst = (lst.f, none) := by
  refine ⟨?_, ?_, rfl⟩
  · unfold httpGetReader
    rw [hh]
  · unfold ftpGetReader
    rw [hf]

/-- Claim C7 witness: the amended theorem at the zero-value fetcher states
(and a local fetcher holding an open handle). -/
theorem C7_notFetched_http_ftp_only_witness :
    ((⟨none⟩ : HttpSt).data = none) ∧ ((⟨none⟩ : FtpSt).data = none) ∧
      httpGetReader ⟨none⟩ = .error .notFetchedHttp ∧
      ftpGetReader ⟨none⟩ = .error .notFetchedFtp ∧
      localGetReader ⟨some ()⟩ = (some (), none) := by
  refine ⟨rfl, rfl, ?_, ?_, ?_⟩
  · exact (C7_notFetched_http_ftp_only ⟨none⟩ ⟨none⟩ ⟨some ()⟩ rfl rfl).1
  · exact (C7_notFetched_http_ftp_only ⟨none⟩ ⟨none⟩ ⟨some ()⟩ rfl rfl).2.1
  · exact (C7_notFetched_http_ftp_only ⟨none⟩ ⟨none⟩ ⟨some ()⟩ rfl rfl).2.2

/-! ## Archive member extraction (claim C4) -/

/-- An archive entry as the package observes it: the name compared against the
requested member, and the byte stream obtained for the entry. -/
structure ArchEntry where
  name : GoStr
  content : Bytes
deriving DecidableEq

/-- `zipWrapper.GetReader` from `archives.go`.  `archive/zip` is embedded as
the abstract parameter `zp` (`zip.NewReader` plus the central-directory entry
list; `none` models a non-nil `zip.NewReader` error), and the wrapped
fetcher's `GetReader`+`ReadAll` result is the parameter `inner`.  The scan
returns (the stream of) the first entry whose name equals `insideName`
exactly; otherwise the member-not-found error. -/
def zipGetReader (zp : Bytes → Option (List ArchEntry)) (inner : Except GoErr Bytes)
    (insideName : GoStr) : Except GoErr Bytes :=
  match inner with
  | .error e => .error e
  | .ok data =>
      match zp data with
      | none => .error .zipOpenFail
      | some entries =>
          match entries.find? (fun zf => zf.name == insideName) with
          | some zf => .ok zf.content
          | none => .error (.memberNotFoundZip insideName)

/-- `tarballWrapper.GetReader` from `archives.go`.  `gunzip` embeds
`gzip.NewReader` plus reading (`none` models a bad-header error), `bunzip`
embeds `bzip2.NewReader` plus reading (its construction cannot fail), and
`tp` embeds the sequence of `tar.Next` headers produced until the first
error/EOF.  The `compType` switch matches the Go switch: `""` is the
unknown-tarball error, `"gzip"` and `"bzip2"` decompress, anything else
(i.e. `"none"`) passes the stream through. -/
def tarGetReader (gunzip : Bytes → Option Bytes) (bunzip : Bytes → Bytes)
    (tp : Bytes → List ArchEntry) (inner : Except GoErr Bytes)
    (compType insideName : GoStr) : Except GoErr Bytes :=
  match inner with
  | .error e => .error e
  | .ok data =>
      if compType = gs "" then .error .unknownTarball
      else
        let dec : Option Bytes :=
          if compType = gs "gzip" then gunzip data
          else if compType = gs "bzip2" then some (bunzip data)
          else some data
        match dec with
        | none => .error .gzipHeaderBad
        | some d =>
            match (tp d).find? (fun h => h.name == insideName) with
            | some h => .ok h.content
            | none => .error (.memberNotFoundTar insideName)

theorem tarGetReader_gzip (gunzip : Bytes → Option Bytes) (bunzip : Bytes → Bytes)
    (tp : Bytes → List ArchEntry) (data : Bytes) (pn : GoStr) :
    tarGetReader gunzip bunzip tp (.ok data) (gs "gzip") pn =
      (match gunzip data with
        | none => .error .gzipHeaderBad
        | some d =>
            match (tp d).find? (fun h => h.name == pn) with
            | some h => .ok h.content
            | none => .error (.memberNotFoundTar pn)) := rfl

/-- Claim C4: for the zip and tarball wrappers, `Wrap` succeeds (nil error)
for every input — the archive is never consulted at wrap time, and
`DetectWrap` takes only the two locator strings — while the member-not-found
error arises from `GetReader` exactly when the inner stream is readable, the
archive decodes, and the scan finds no entry whose name equals the member name
exactly (a found entry yields its stream instead). -/
theorem C4_member_not_found_only_at_GetReader (zp : Bytes → Option (List ArchEntry))
    (gunzip : Bytes → Option Bytes) (bunzip : Bytes → Bytes)
    (tp : Bytes → List ArchEntry) (data d : Bytes) (pn : GoStr)
    (entries : List ArchEntry)
    (hz : zp data = some entries) (hg : gunzip data = some d) :
    (∀ (s : RegState) (f : FRef) (pn' : GoStr),
        (zipWrap s f pn').2.2 = none ∧ (tarWrap s f pn').2.2 = none) ∧
      (zipGetReader zp (.ok data) pn = .error (.memberNotFoundZip pn) ↔
        entries.find? (fun zf => zf.name == pn) = none) ∧
      (∀ e, entries.find? (fun zf => zf.name == pn) = some e →
        zipGetReader zp (.ok data) pn = .ok e.content) ∧
      (tarGetReader gunzip bunzip tp (.ok data) (gs "gzip") pn =
          .error (.memberNotFoundTar pn) ↔
        (tp d).find? (fun h => h.name == pn) = none) ∧
      (∀ e, (tp d).find? (fun h => h.name == pn) = some e →
        tarGetReader gunzip bunzip tp (.ok data) (gs "gzip") pn = .ok e.content) := by
  refine ⟨fun s f pn' => ⟨rfl, rfl⟩, ?_, ?_, ?_, ?_⟩
  · simp only [zipGetReader, hz]
    cases hfind : entries.find? (fun zf => zf.name == pn) with
    | none => simp [hfind]
    | some zf => simp [hfind]
  · intro e he
    simp only [zipGetReader, hz, he]
  · simp only [tarGetReader_gzip, hg]
    cases hfind : (tp d).find? (fun h => h.name == pn) with
    | none => simp [hfind]
    | some h => simp [hfind]
  · intro e he
    simp only [tarGetReader_gzip, hg, he]

/-- Claim C4 witness: a one-entry archive (`m`) queried for an absent member
(`n`) and for the present member. -/
theorem C4_member_not_found_only_at_GetReader_witness :
    ((fun _ => some [({ name := gs "m", content := [1] } : ArchEntry)] :
        Bytes → Option (List ArchEntry)) [0] = some [{ name := gs "m", content := [1] }]) ∧
      ((fun _ => some [2] : Bytes → Option Bytes) [0] = some [2]) ∧
      (zipGetReader (fun _ => some [{ name := gs "m", content := [1] }]) (.ok [0]) (gs "n") =
          .error (.memberNotFoundZip (gs "n")) ↔
        [({ name := gs "m", content := [1] } : ArchEntry)].find?
          (fun zf => zf.name == gs "n") = none) ∧
      (tarGetReader (fun _ => some [2]) id
            (fun _ => [{ name := gs "m", content := [1] }]) (.ok [0]) (gs "gzip") (gs "n") =
          .error (.memberNotFoundTar (gs "n")) ↔
        ((fun _ => [({ name := gs "m", content := [1] } : ArchEntry)] :
            Bytes → List ArchEntry) [2]).find? (fun h => h.name == gs "n") = none) := by
  refine ⟨rfl, rfl, ?_, ?_⟩
  · exact (C4_member_not_found_only_at_GetReader
      (fun _ => some [{ name := gs "m", content := [1] }]) (fun _ => some [2]) id
      (fun _ => [{ name := gs "m", content := [1] }]) [0] [2] (gs "n")
      [{ name := gs "m", content := [1] }] rfl rfl).2.1
  · exact (C4_member_not_found_only_at_GetReader
      (fun _ => some [{ name := gs "m", content := [1] }]) (fun _ => some [2]) id
      (fun _ => [{ name := gs "m", content := [1] }]) [0] [2] (gs "n")
      [{ name := gs "m", content := [1] }] rfl rfl).2.2.2.1

/-! ## The cache store (`simplecache.go`)

Mutable process state and the disk are explicit: `World.cached` is the `cached`
map (`none` = the nil map before `InitCache`), `World.files` the payload files
on disk (full path to bytes; a missing key is any failing `os.Open`/`ReadAll`),
`World.docs` the persisted `cacheinfo.json` documents (full path to parsed
index; a missing key is an unreadable/corrupt document).  `crypto/md5` is the
abstract parameter `md5hex` (the hex digest string of the key), the clock is
the `now : Nat` argument (hours), and durations are in hours, so a `d`-day
maximum age is `d * 24`.  Disk writes are modelled as succeeding (the Go code
logs and ignores their failures). -/

/-- A cache index entry (`cachedfile` in `simplecache.go`). -/
structure cachedfile where
  localName : GoStr
  fetchTime : Nat
deriving DecidableEq

/-- The in-memory cache index: a map from cache key to entry. -/
abbrev CacheIdx := List (GoStr × cachedfile)

/-- Lookup in a Go map (first binding for the key). -/
def alookup {β : Type} : List (GoStr × β) → GoStr → Option β
  | [], _ => none
  | (k, v) :: rest, key => if k = key then some v else alookup rest key

/-- Assignment in a Go map: replace the binding for the key, or append one. -/
def aupdate {β : Type} : List (GoStr × β) → GoStr → β → List (GoStr × β)
  | [], k, v => [(k, v)]
  | (k', v') :: rest, k, v =>
      if k' = k then (k, v) :: rest else (k', v') :: aupdate rest k v

theorem alookup_aupdate_self {β : Type} (l : List (GoStr × β)) (k : GoStr) (v : β) :
    alookup (aupdate l k v) k = some v := by
  induction l with
  | nil => simp [aupdate, alookup]
  | cons p rest ih =>
      obtain ⟨k', v'⟩ := p
      by_cases hk : k' = k
      · simp [aupdate, hk, alookup]
      · simp [aupdate, hk, alookup, ih]

/-- The process-wide state of the cache plus the disk it touches. -/
structure World where
  cachePath : GoStr
  cacheAge : Nat
  cached : Option CacheIdx
  files : List (GoStr × Bytes)
  docs : List (GoStr × CacheIdx)
deriving DecidableEq

/-- `path.Join(a, b)` for the paths the package builds (no cleaning is needed
for a hex digest or `cacheinfo.json` appended to a directory). -/
def goPathJoin (a b : GoStr) : GoStr := if a = [] then b else a ++ '/' :: b

/-- `InitCache` from `simplecache.go`: record the directory and the maximum
age (at least one day), then load the persisted index document, falling back
to an empty index when it is absent or unreadable.  (`os.Mkdir` has no
observable effect in this model.) -/
def InitCache (w : World) (cpath : GoStr) (ageDays : Nat) : World :=
  { w with
      cachePath := cpath,
      cacheAge := (if ageDays < 1 then 1 else ageDays) * 24,
      cached := some ((alookup w.docs (goPathJoin cpath (gs "cacheinfo.json"))).getD []) }

/-- `GetCachedFile` from `simplecache.go`: lazily initialize with directory
`"cache"` and 7 days when the map is still nil; strip the fragment with
`SplitN(resource, "#", 2)[0]`; return nil when the key is absent, when the
entry is older than `cacheAge`, or when the payload file cannot be read. -/
def GetCachedFile (now : Nat) (w0 : World) (resource : GoStr) : World × Option Bytes :=
  let w := match w0.cached with
    | none => InitCache w0 (gs "cache") 7
    | some _ => w0
  let key := (splitHash resource).1
  match w.cached with
  | none => (w, none)
  | some idx =>
      match alookup idx key with
      | none => (w, none)
      | some cinfo =>
          if now - cinfo.fetchTime > w.cacheAge then (w, none)
          else
            match alookup w.files (goPathJoin w.cachePath cinfo.localName) with
            | none => (w, none)
            | some data => (w, some data)

/-- `PutCachedFile` from `simplecache.go`: strip the fragment, write the
payload to `<cachePath>/<md5hex(key)>`, then assign the entry into the
`cached` map — which, in Go, panics when the map is still nil (`none` result);
otherwise serialize the whole index to `<cachePath>/cacheinfo.json`. -/
def PutCachedFile (md5hex : GoStr → GoStr) (now : Nat) (w : World) (resource : GoStr)
    (data : Bytes) : Option World :=
  let key := (splitHash resource).1
  let tempname := md5hex key
  let w1 := { w with files := aupdate w.files (goPathJoin w.cachePath tempname) data }
  match w1.cached with
  | none => none
  | some idx =>
      let idx' := aupdate idx key { localName := tempname, fetchTime := now }
      some { w1 with
          cached := some idx',
          docs := aupdate w1.docs (goPathJoin w1.cachePath (gs "cacheinfo.json")) idx' }

/-- `httpFetcher.Fetch` from `remotes.go`: consult the cache first and use a
hit without touching the network; otherwise parse the URL (propagating its
error), perform the GET and full read (the abstract `net`; Basic-Auth handling
is inside it), and store the body in the cache.  The boolean records whether
the network was used. -/
def httpFetch (up : URLParse) (md5hex : GoStr → GoStr)
    (net : GoStr → Except GoErr Bytes) (now : Nat) (w : World) (resource : GoStr) :
    Option (World × HttpSt × Option GoErr × Bool) :=
  let g := GetCachedFile now w resource
  match g.2 with
  | some d => some (g.1, ⟨some d⟩, none, false)
  | none =>
      match up resource with
      | none => some (g.1, ⟨none⟩, some (.urlParseFail resource), false)
      | some _ =>
          match net resource with
          | .error e => some (g.1, ⟨none⟩, some e, true)
          | .ok body =>
              match PutCachedFile md5hex now g.1 resource body with
              | none => none
              | some w2 => some (w2, ⟨some body⟩, none, true)

theorem GetCachedFile_miss (now : Nat) (w : World) (res : GoStr) (idx : CacheIdx)
    (hc : w.cached = some idx) (hm : alookup idx (splitHash res).1 = none) :
    GetCachedFile now w res = (w, none) := by
  simp only [GetCachedFile, hc, hm]

theorem GetCachedFile_hit (now : Nat) (w : World) (res : GoStr) (idx : CacheIdx)
    (cinfo : cachedfile) (b : Bytes)
    (hc : w.cached = some idx) (hf : alookup idx (splitHash res).1 = some cinfo)
    (hage : ¬ (now - cinfo.fetchTime > w.cacheAge))
    (hr : alookup w.files (goPathJoin w.cachePath cinfo.localName) = some b) :
    GetCachedFile now w res = (w, some b) := by
  simp only [GetCachedFile, hc, hf, hr]
  rw [if_neg hage]

theorem PutCachedFile_initialized (md5hex : GoStr → GoStr) (now : Nat) (w : World)
    (res : GoStr) (data : Bytes) (idx : CacheIdx) (hc : w.cached = some idx) :
    PutCachedFile md5hex now w res data =
      some { w with
          files := aupdate w.files (goPathJoin w.cachePath (md5hex (splitHash res).1)) data,
          cached := some (aupdate idx (splitHash res).1
            { localName := md5hex (splitHash res).1, fetchTime := now }),
          docs := aupdate w.docs (goPathJoin w.cachePath (gs "cacheinfo.json"))
            (aupdate idx (splitHash res).1
              { localName := md5hex (splitHash res).1, fetchTime := now }) } := by
  simp only [PutCachedFile, hc]

/-- Claim C5: with an entry present for the resource's cache key, a stale
entry (age strictly over the maximum) yields absent even when the payload
file is readable on disk, with the whole store (index included) unchanged —
the stale entry is not deleted — and a fresh entry whose payload file cannot
be read likewise yields absent (the function has no error outcome at all). -/
theorem C5_stale_or_unreadable_is_absent (now : Nat) (w : World) (res : GoStr)
    (idx : CacheIdx) (cinfo : cachedfile)
    (hc : w.cached = some idx)
    (hfound : alookup idx (splitHash res).1 = some cinfo) :
    (∀ b, alookup w.files (goPathJoin w.cachePath cinfo.localName) = some b →
      now - cinfo.fetchTime > w.cacheAge →
      GetCachedFile now w res = (w, none)) ∧
      (now - cinfo.fetchTime ≤ w.cacheAge →
        alookup w.files (goPathJoin w.cachePath cinfo.localName) = none →
        GetCachedFile now w res = (w, none)) := by
  constructor
  · intro b hb hstale
    simp only [GetCachedFile, hc, hfound]
    rw [if_pos hstale]
  · intro hfresh hread
    simp only [GetCachedFile, hc, hfound]
    rw [if_neg (by omega), hread]

/-- Claim C5 witness: a one-day-stale entry whose payload file is still on
disk, and a fresh entry whose payload file is missing. -/
theorem C5_stale_or_unreadable_is_absent_witness :
    (({ cachePath := gs "c", cacheAge := 24, cached := some [(gs "a", ⟨gs "f", 0⟩)],
        files := [(gs "c/f", [9])], docs := [] } : World).cached =
          some [(gs "a", ⟨gs "f", 0⟩)]) ∧
      (alookup [(gs "a", (⟨gs "f", 0⟩ : cachedfile))] (splitHash (gs "a#m")).1 =
        some ⟨gs "f", 0⟩) ∧
      (alookup [(gs "c/f", [9])] (goPathJoin (gs "c") (gs "f")) = some [9]) ∧
      ((100 : Nat) - 0 > 24) ∧ ((10 : Nat) - 0 ≤ 24) ∧
      GetCachedFile 100
          { cachePath := gs "c", cacheAge := 24, cached := some [(gs "a", ⟨gs "f", 0⟩)],
            files := [(gs "c/f", [9])], docs := [] } (gs "a#m") =
        ({ cachePath := gs "c", cacheAge := 24, cached := some [(gs "a", ⟨gs "f", 0⟩)],
            files := [(gs "c/f", [9])], docs := [] }, none) ∧
      GetCachedFile 10
          { cachePath := gs "c", cacheAge := 24, cached := some [(gs "a", ⟨gs "f", 0⟩)],
            files := [], docs := [] } (gs "a#m") =
        ({ cachePath := gs "c", cacheAge := 24, cached := some [(gs "a", ⟨gs "f", 0⟩)],
            files := [], docs := [] }, none) := by
  refine ⟨rfl, by decide, by decide, by decide, by decide, ?_, ?_⟩
  · exact (C5_stale_or_unreadable_is_absent 100
      { cachePath := gs "c", cacheAge := 24, cached := some [(gs "a", ⟨gs "f", 0⟩)],
        files := [(gs "c/f", [9])], docs := [] } (gs "a#m") [(gs "a", ⟨gs "f", 0⟩)]
      ⟨gs "f", 0⟩ rfl (by decide)).1 [9] (by decide) (by decide)
  · exact (C5_stale_or_unreadable_is_absent 10
      { cachePath := gs "c", cacheAge := 24, cached := some [(gs "a", ⟨gs "f", 0⟩)],
        files := [], docs := [] } (gs "a#m") [(gs "a", ⟨gs "f", 0⟩)]
      ⟨gs "f", 0⟩ rfl (by decide)).2 (by decide) rfl

/-- The zero-value world before any `InitCache` call: the `cached` map is
still nil. -/
def worldUninit : World :=
  { cachePath := [], cacheAge := 0, cached := none, files := [], docs := [] }

/-- Claim C8 counterexample: `PutCachedFile` called before any `InitCache`
(and before any `GetCachedFile`) does not initialize the store with defaults —
it assigns into the nil `cached` map, a Go runtime panic (`none` here), so the
operation does not complete without failing the caller. -/
theorem C8_counterexample :
    PutCachedFile (fun k => k) 0 worldUninit (gs "r") [1] = none := rfl

theorem GetCachedFile_uninit_fst (now : Nat) (w : World) (res : GoStr)
    (h : w.cached = none) :
    (GetCachedFile now w res).1 = InitCache w (gs "cache") 7 := by
  unfold GetCachedFile
  rw [h]
  dsimp only [InitCache]
  repeat' split
  all_goals rfl

/-- Claim C8, amended: only the get operation self-initializes — a
`GetCachedFile` before any explicit `InitCache` puts the store into the
`InitCache "cache" 7` state (directory `"cache"`, a 7-day maximum age, a
non-nil index loaded from disk or empty) and completes; `PutCachedFile`
before any `InitCache` does not self-initialize and fails its caller (nil-map
assignment panic).  Every fetcher in the package calls the get before the
put, so fetcher-driven cache use does see the lazy initialization. -/
theorem C8_lazy_init_on_get_only (now : Nat) (w : World) (res : GoStr)
    (h : w.cached = none) :
    ((GetCachedFile now w res).1 = InitCache w (gs "cache") 7 ∧
      (InitCache w (gs "cache") 7).cachePath = gs "cache" ∧
      (InitCache w (gs "cache") 7).cacheAge = 7 * 24 ∧
      (InitCache w (gs "cache") 7).cached =
        some ((alookup w.docs (goPathJoin (gs "cache") (gs "cacheinfo.json"))).getD [])) ∧
      (∀ (md5hex : GoStr → GoStr) (data : Bytes),
        PutCachedFile md5hex now w res data = none) := by
  refine ⟨⟨GetCachedFile_uninit_fst now w res h, rfl, rfl, rfl⟩, ?_⟩
  intro md5hex data
  unfold PutCachedFile
  dsimp only
  rw [h]

/-- Claim C8 witness: the amended theorem at the zero-value world. -/
theorem C8_lazy_init_on_get_only_witness :
    (worldUninit.cached = none) ∧
      (GetCachedFile 5 worldUninit (gs "r")).1 = InitCache worldUninit (gs "cache") 7 ∧
      (InitCache worldUninit (gs "cache") 7).cacheAge = 7 * 24 ∧
      PutCachedFile (fun k => 'h' :: k) 5 worldUninit (gs "r") [1, 2] = none := by
  refine ⟨rfl, ?_, ?_, ?_⟩
  · exact (C8_lazy_init_on_get_only 5 worldUninit (gs "r") rfl).1.1
  · exact (C8_lazy_init_on_get_only 5 worldUninit (gs "r") rfl).1.2.2.1
  · exact (C8_lazy_init_on_get_only 5 worldUninit (gs "r") rfl).2 (fun k => 'h' :: k) [1, 2]

/-- The index after the first fetch of `r1` stores one entry for the cache
key, named by the md5 digest of the key. -/
def afterPutIdx (md5hex : GoStr → GoStr) (t0 : Nat) (r1 : GoStr) (idx : CacheIdx) :
    CacheIdx :=
  aupdate idx (splitHash r1).1
    { localName := md5hex (splitHash r1).1, fetchTime := t0 }

/-- The world after the first fetch of `r1` wrote the payload and the index. -/
def afterPutWorld (md5hex : GoStr → GoStr) (w : World) (t0 : Nat) (r1 : GoStr)
    (body : Bytes) (idx : CacheIdx) : World :=
  { w with
      files := aupdate w.files (goPathJoin w.cachePath (md5hex (splitHash r1).1)) body,
      cached := some (afterPutIdx md5hex t0 r1 idx),
      docs := aupdate w.docs (goPathJoin w.cachePath (gs "cacheinfo.json"))
        (afterPutIdx md5hex t0 r1 idx) }

/-- Claim C1: the cache key both `GetCachedFile` and `PutCachedFile` use is
the portion of the resource before the first `'#'`; fetching `r1 = main#a`
(fresh, cache miss) downloads once and stores exactly one entry under the key,
named by the md5 digest of the key; a later fetch of `r2 = main#b` — same
main path, different member — while the entry is within the age window hits
the cache, uses no network, and leaves the store unchanged (so at most one
entry and one download serve both locators). -/
theorem C1_one_cached_fetch_per_mainPath (up : URLParse) (md5hex : GoStr → GoStr)
    (net : GoStr → Except GoErr Bytes) (w : World) (t0 t1 : Nat) (r1 r2 : GoStr)
    (idx : CacheIdx) (body : Bytes) (u : URL)
    (hinit : w.cached = some idx)
    (hkey : (splitHash r1).1 = (splitHash r2).1)
    (hfresh : alookup idx (splitHash r1).1 = none)
    (hup : up r1 = some u) (hnet : net r1 = .ok body)
    (hage : t1 - t0 ≤ w.cacheAge) :
    ((splitHash r1).1 = r1.takeWhile (fun c => c != '#') ∧
      (splitHash r2).1 = r2.takeWhile (fun c => c != '#')) ∧
      httpFetch up md5hex net t0 w r1 =
        some (afterPutWorld md5hex w t0 r1 body idx, ⟨some body⟩, none, true) ∧
      alookup (afterPutIdx md5hex t0 r1 idx) (splitHash r2).1 =
        some { localName := md5hex (splitHash r1).1, fetchTime := t0 } ∧
      httpFetch up md5hex net t1 (afterPutWorld md5hex w t0 r1 body idx) r2 =
        some (afterPutWorld md5hex w t0 r1 body idx, ⟨some body⟩, none, false) := by
  have hmiss := GetCachedFile_miss t0 w r1 idx hinit hfresh
  have hput := PutCachedFile_initialized md5hex t0 w r1 body idx hinit
  have hlook : alookup (afterPutIdx md5hex t0 r1 idx) (splitHash r2).1 =
      some { localName := md5hex (splitHash r1).1, fetchTime := t0 } := by
    rw [← hkey]
    exact alookup_aupdate_self idx (splitHash r1).1 _
  refine ⟨⟨splitHash_fst r1, splitHash_fst r2⟩, ?_, hlook, ?_⟩
  · simp only [httpFetch, hmiss, hup, hnet, hput, afterPutWorld, afterPutIdx]
  · have hhit : GetCachedFile t1 (afterPutWorld md5hex w t0 r1 body idx) r2 =
        (afterPutWorld md5hex w t0 r1 body idx, some body) := by
      refine GetCachedFile_hit t1 _ r2 (afterPutIdx md5hex t0 r1 idx)
        { localName := md5hex (splitHash r1).1, fetchTime := t0 } body rfl hlook ?_ ?_
      · show ¬ (t1 - t0 > (afterPutWorld md5hex w t0 r1 body idx).cacheAge)
        have hage' : (afterPutWorld md5hex w t0 r1 body idx).cacheAge = w.cacheAge := rfl
        rw [hage']
        omega
      · show alookup (afterPutWorld md5hex w t0 r1 body idx).files
            (goPathJoin (afterPutWorld md5hex w t0 r1 body idx).cachePath
              (md5hex (splitHash r1).1)) = some body
        exact alookup_aupdate_self w.files _ body
    simp only [httpFetch, hhit]

/-- Claim C1 witness: two locators `a#x`, `a#y` sharing the main path `a`,
a fresh initialized cache, and a one-hour gap within a one-day age window. -/
theorem C1_one_cached_fetch_per_mainPath_witness :
    (({ cachePath := gs "c", cacheAge := 24, cached := some [], files := [],
        docs := [] } : World).cached = some []) ∧
      ((splitHash (gs "a#x")).1 = (splitHash (gs "a#y")).1) ∧
      (alookup ([] : CacheIdx) (splitHash (gs "a#x")).1 = none) ∧
      ((fun _ => some ⟨[], [], []⟩ : URLParse) (gs "a#x") = some ⟨[], [], []⟩) ∧
      ((fun _ => Except.ok [1, 2] : GoStr → Except GoErr Bytes) (gs "a#x") =
        .ok [1, 2]) ∧
      ((1 : Nat) - 0 ≤ 24) ∧
      httpFetch (fun _ => some ⟨[], [], []⟩) (fun k => 'h' :: k) (fun _ => .ok [1, 2]) 0
          { cachePath := gs "c", cacheAge := 24, cached := some [], files := [],
            docs := [] } (gs "a#x") =
        some (afterPutWorld (fun k => 'h' :: k)
            { cachePath := gs "c", cacheAge := 24, cached := some [], files := [],
              docs := [] } 0 (gs "a#x") [1, 2] [],
          ⟨some [1, 2]⟩, none, true) ∧
      httpFetch (fun _ => some ⟨[], [], []⟩) (fun k => 'h' :: k) (fun _ => .ok [1, 2]) 1
          (afterPutWorld (fun k => 'h' :: k)
            { cachePath := gs "c", cacheAge := 24, cached := some [], files := [],
              docs := [] } 0 (gs "a#x") [1, 2] []) (gs "a#y") =
        some (afterPutWorld (fun k => 'h' :: k)
            { cachePath := gs "c", cacheAge := 24, cached := some [], files := [],
              docs := [] } 0 (gs "a#x") [1, 2] [],
          ⟨some [1, 2]⟩, none, false) := by
  refine ⟨rfl, by decide, rfl, rfl, rfl, by decide, ?_, ?_⟩
  · exact (C1_one_cached_fetch_per_mainPath (fun _ => some ⟨[], [], []⟩)
      (fun k => 'h' :: k) (fun _ => .ok [1, 2])
      { cachePath := gs "c", cacheAge := 24, cached := some [], files := [], docs := [] }
      0 1 (gs "a#x") (gs "a#y") [] [1, 2] ⟨[], [], []⟩ rfl (by decide) rfl rfl rfl
      (by decide)).2.1
  · exact (C1_one_cached_fetch_per_mainPath (fun _ => some ⟨[], [], []⟩)
      (fun k => 'h' :: k) (fun _ => .ok [1, 2])
      { cachePath := gs "c", cacheAge := 24, cached := some [], files := [], docs := [] }
      0 1 (gs "a#x") (gs "a#y") [] [1, 2] ⟨[], [], []⟩ rfl (by decide) rfl rfl rfl
      (by decide)).2.2.2

end Anydata
